import Mathlib

/-
  Verification of the wbot Session Lifecycle & Resilience Engine.

  Shallow embedding of the reconnect policy, pending message queue,
  promotion loop, and HTTP endpoint behaviours of the source
  (lib/config.js, lib/messageQueue.js, lib/sessionManager.js and the
  main server file).  Each definition is translated directly from the
  corresponding JavaScript; timestamps and durations are naturals
  (milliseconds), money-free arithmetic is exact, and the exponential
  backoff is modelled over the rationals (1.5 = 3/2 is exact in both
  IEEE doubles for the relevant range and in the rationals).
-/

namespace WBot

/-! ## Connection status values (lib/config.js, CONNECTION_STATUS) -/

def CONNECTED : String := "CONNECTED"

def DISCONNECTED : String := "DISCONNECTED"

def RECONNECTING : String := "RECONNECTING"

def QR_REQUIRED : String := "QR_REQUIRED"

def QR_CODE : String := "QR_CODE"

def AUTH_FAILURE : String := "AUTH_FAILURE"

def INITIALIZING : String := "INITIALIZING"

def LOADING : String := "LOADING"

def SYNC_TIMEOUT : String := "SYNC_TIMEOUT"

def INIT_ERROR : String := "INIT_ERROR"

def AUTHENTICATED : String := "AUTHENTICATED"

def OPENING : String := "OPENING"

/-- The value set of CONNECTION_STATUS in lib/config.js. -/
def CONNECTION_STATUS_values : List String :=
  [ CONNECTED, DISCONNECTED, RECONNECTING, QR_REQUIRED, QR_CODE,
    AUTH_FAILURE, INITIALIZING, LOADING, SYNC_TIMEOUT, INIT_ERROR ]

/-- Modelled from the spec: the session state set of spec section 4.2:
INITIALIZING, LOADING(p%), QR_REQUIRED, AUTHENTICATED, CONNECTED,
SYNC_TIMEOUT, DISCONNECTED, AUTH_FAILURE, INIT_ERROR, RECONNECTING.
Used only to compare the code's QR status value against the spec's set. -/
def specStateSet : List String :=
  [ INITIALIZING, LOADING, QR_REQUIRED, AUTHENTICATED, CONNECTED,
    SYNC_TIMEOUT, DISCONNECTED, AUTH_FAILURE, INIT_ERROR, RECONNECTING ]

/-! ## Disconnect-reason classification (lib/config.js) -/

def NO_RECONNECT_REASONS : List String :=
  [ "LOGOUT", "TOS_BLOCK", "SMB_TOS_BLOCK", "BANNED" ]

def IMMEDIATE_RECONNECT_REASONS : List String :=
  [ "CONFLICT", "UNPAIRED", "NAVIGATION", "TIMEOUT", "NETWORK_ERROR" ]

def shouldReconnect (reason : String) : Bool :=
  !(NO_RECONNECT_REASONS.contains reason)

def isImmediateReconnect (reason : String) : Bool :=
  IMMEDIATE_RECONNECT_REASONS.contains reason

/-! ## Resilience configuration constants (lib/config.js, RESILIENCE_CONFIG) -/

def MAX_RECONNECT_ATTEMPTS : ℕ := 20

def RECONNECT_BASE_DELAY : ℚ := 5000

def RECONNECT_MAX_DELAY : ℚ := 300000

def RECONNECT_IMMEDIATE_DELAY : ℤ := 3000

def RECONNECT_JITTER_MAX : ℚ := 3000

/-- lib/config.js calculateReconnectDelay.  The jitter draw
(Math.random() * RECONNECT_JITTER_MAX, a value in [0, 3000)) is passed
explicitly.  The immediate branch returns
RECONNECT_IMMEDIATE_DELAY + attempt * 1500 with no jitter and no floor;
the backoff branch returns
Math.floor(min(BASE * 1.5^attempt, MAX_DELAY) + jitter). -/
def calculateReconnectDelay (attempt : ℕ) (jitter : ℚ) (immediate : Bool) : ℤ :=
  if immediate then
    RECONNECT_IMMEDIATE_DELAY + attempt * 1500
  else
    Int.floor (min (RECONNECT_BASE_DELAY * (3 / 2 : ℚ) ^ attempt) RECONNECT_MAX_DELAY + jitter)

/-- The deterministic (pre-jitter, pre-floor) part of the backoff delay. -/
def cappedBackoff (attempt : ℕ) : ℚ :=
  min (RECONNECT_BASE_DELAY * (3 / 2 : ℚ) ^ attempt) RECONNECT_MAX_DELAY

/-! ## Pending message queue (lib/messageQueue.js) -/

/-- One entry of a per-instance pending queue.  The source record also
carries to/content/media fields that no claim consults; id, createdAt
(the enqueue timestamp) and retries drive the queue logic. -/
structure QueuedMessage where
  id : ℕ
  createdAt : ℕ
  retries : ℕ
  deriving DecidableEq

namespace MessageQueue

def maxQueueSize : ℕ := 100

def maxRetries : ℕ := 3

def messageTimeout : ℕ := 300000

/-- MessageQueue.enqueue: if the queue already holds maxQueueSize
messages the oldest is shifted off, then the new message is pushed. -/
def enqueue (q : List QueuedMessage) (m : QueuedMessage) : List QueuedMessage :=
  (if maxQueueSize ≤ q.length then q.tail else q) ++ [m]

/-- The position reported in the enqueue result: queue.length after push. -/
def enqueuePosition (q : List QueuedMessage) (m : QueuedMessage) : ℕ :=
  (enqueue q m).length

/-- Observable events of MessageQueue.processQueue: a message handed to
sendFunction, an expired message dropped and reported through
onMessageFailed with the EXPIRED indication, a message dropped after
maxRetries failures, or a failed send that stays queued for retry.
Each event records the Date.now() value of its loop iteration. -/
inductive DrainEvent where
  | sent (m : QueuedMessage) (t : ℕ)
  | expiredDrop (m : QueuedMessage) (t : ℕ)
  | failedDrop (m : QueuedMessage) (t : ℕ)
  | retry (m : QueuedMessage) (t : ℕ)
  deriving DecidableEq

/-- MessageQueue.processQueue.  The while loop is driven by two oracles:
time gives Date.now() at each loop iteration, sendOk whether the awaited
sendFunction call of that iteration succeeds.  fuel bounds the number of
iterations (the proved properties hold for every fuel).  Per iteration
the head is examined: if now - createdAt > messageTimeout it is shifted
and reported EXPIRED without being sent; otherwise it is sent; on send
failure retries is incremented and the message is dropped once
retries >= maxRetries, else retried at the head of the queue. -/
def processQueue (time : ℕ → ℕ) (sendOk : ℕ → Bool) :
    ℕ → ℕ → List QueuedMessage → List DrainEvent
  | 0, _, _ => []
  | _ + 1, _, [] => []
  | fuel + 1, step, m :: rest =>
    let t := time step
    if messageTimeout < t - m.createdAt then
      DrainEvent.expiredDrop m t :: processQueue time sendOk fuel (step + 1) rest
    else if sendOk step then
      DrainEvent.sent m t :: processQueue time sendOk fuel (step + 1) rest
    else if maxRetries ≤ m.retries + 1 then
      DrainEvent.failedDrop { m with retries := m.retries + 1 } t ::
        processQueue time sendOk fuel (step + 1) rest
    else
      DrainEvent.retry { m with retries := m.retries + 1 } t ::
        processQueue time sendOk fuel (step + 1) ({ m with retries := m.retries + 1 } :: rest)

end MessageQueue

/-! ## Disconnected-event reconnect policy (server, client.on disconnected) -/

/-- Distillation of the observable outcome of the disconnected handler:
whether a delayed restart was scheduled, whether the enabled column was
set to 0 in the instances table, the attempt counter value used for the
backoff (and stored, +1, on the restarted session), and whether the
immediate-delay branch applies. -/
structure DisconnectOutcome where
  reconnectScheduled : Bool
  enabledSetFalse : Bool
  attemptsUsed : ℕ
  immediate : Bool
  deriving DecidableEq

/-- The client.on('disconnected') handler's reconnect decision, as a
function of whether a database pool exists, the disconnect reason, and
the session's reconnect_attempts counter at disconnect time.  If
shouldReconnect(reason) is false the handler sets enabled = 0 (when a
pool exists) and returns without scheduling; otherwise it resets the
counter to 0 once it has reached MAX_RECONNECT_ATTEMPTS and always
schedules a delayed restart via setTimeout. -/
def onDisconnected (hasPool : Bool) (reason : String) (attempts : ℕ) : DisconnectOutcome :=
  if !(shouldReconnect reason) then
    { reconnectScheduled := false, enabledSetFalse := hasPool,
      attemptsUsed := attempts, immediate := false }
  else
    { reconnectScheduled := true, enabledSetFalse := false,
      attemptsUsed := if MAX_RECONNECT_ATTEMPTS ≤ attempts then 0 else attempts,
      immediate := isImmediateReconnect reason }

/-! ## Reconnect-task state machine (forceReconnect / handleConnectionLoss) -/

/-- The per-instance session data the reconnect pipeline consults. -/
structure ReconnSession where
  isReconnecting : Bool
  intervalsArmed : Bool
  deriving DecidableEq

/-- SessionState.prepareForReconnect: sets isReconnecting and clears
every probe interval. -/
def prepareForReconnect (s : ReconnSession) : ReconnSession :=
  { s with isReconnecting := true, intervalsArmed := false }

/-- Per-instance reconnect state: the registered session (if any) and
the number of delayed-restart setTimeout tasks currently pending. -/
structure ReconnState where
  session : Option ReconnSession
  pendingRestarts : ℕ
  deriving DecidableEq

/-- forceReconnect(instanceId, reason): if a session exists it is
prepared for reconnect (flag set, intervals cleared), its client torn
down, and the session deleted from the registry; in every case the
RECONNECTING status is persisted and one delayed restart is scheduled.
There is no isReconnecting guard on entry. -/
def forceReconnect (st : ReconnState) : ReconnState :=
  { session := none, pendingRestarts := st.pendingRestarts + 1 }

/-- handleConnectionLoss(instId, reason): returns immediately when no
session is registered, or when the session's isReconnecting flag is
already set; otherwise it sets the flag, clears intervals, tears the
client down, deletes the session and schedules one delayed restart. -/
def handleConnectionLoss (st : ReconnState) : ReconnState :=
  match st.session with
  | none => st
  | some s =>
    if s.isReconnecting then st
    else { session := none, pendingRestarts := st.pendingRestarts + 1 }

/-- The session registered by startSession (isReconnecting reset to
false; probe intervals armed only later, on ready). -/
def freshSession : ReconnSession :=
  { isReconnecting := false, intervalsArmed := false }

/-- Expiry of one pending delayed-restart timer: the callback runs
startSession only when no session is registered for the instance. -/
def fireRestart (st : ReconnState) : ReconnState :=
  match st.pendingRestarts with
  | 0 => st
  | n + 1 =>
    match st.session with
    | some _ => { st with pendingRestarts := n }
    | none => { session := some freshSession, pendingRestarts := n }

/-! ## Session view and event handlers -/

/-- The slice of SessionState that the qr handler and the HTTP
endpoints consult. -/
structure SessionView where
  status : String
  hasClient : Bool
  qr : Option String
  lastActivity : ℕ
  deriving DecidableEq

/-- The client.on('qr') handler body (run when a session is registered):
stores the payload, sets status to the QR_CODE literal and refreshes
lastActivity with Date.now(). -/
def onQr (now : ℕ) (payload : String) (s : SessionView) : SessionView :=
  { s with qr := some payload, status := QR_CODE, lastActivity := now }

/-! ## Promotion loop from AUTHENTICATED (checkAuthenticatedState) -/

/-- Outcome of the promotion loop: the session status it leaves behind,
whether the keep-alive probe set was started, and whether the CONNECTED
status was persisted to the instances table. -/
structure PromotionResult where
  finalStatus : String
  probesArmed : Bool
  persisted : Bool
  deriving DecidableEq

/-- checkAuthenticatedState(attempt) from the authenticated handler.
getState gives the adapter state observed by poll number attempt (none
for an error or a poll timeout).  The loop exits untouched when the
status has left AUTHENTICATED; promotes (status CONNECTED, persistence
write, startKeepAlive) when a poll observes CONNECTED; retries while
attempt < 10; and sets SYNC_TIMEOUT after the tenth failed poll. -/
def checkAuthenticatedState (getState : ℕ → Option String) (attempt : ℕ)
    (status : String) : PromotionResult :=
  if status ≠ AUTHENTICATED then
    { finalStatus := status, probesArmed := false, persisted := false }
  else if getState attempt = some CONNECTED then
    { finalStatus := CONNECTED, probesArmed := true, persisted := true }
  else if h : attempt < 10 then
    checkAuthenticatedState getState (attempt + 1) status
  else
    { finalStatus := SYNC_TIMEOUT, probesArmed := false, persisted := false }
termination_by 10 - attempt
decreasing_by omega

/-- The setTimeout delay scheduled before poll number attempt: the first
check runs 10 s after authenticated, every later one 15 s after the
previous. -/
def promotionPollDelay (attempt : ℕ) : ℕ :=
  if attempt ≤ 1 then 10000 else 15000

/-! ## HTTP endpoints -/

/-- Result of the adapter sendMessage call made by a send endpoint. -/
inductive SendOutcome where
  | ok
  | disconnectErr
  | otherErr
  deriving DecidableEq

/-- The not-CONNECTED test of POST /api/send-text:
!session || session.status !== CONNECTED || !session.client. -/
def notConnected (session : Option SessionView) : Bool :=
  match session with
  | none => true
  | some s => s.status != CONNECTED || !s.hasClient

/-- Observable response of POST /api/send-text. -/
structure SendTextResponse where
  httpStatus : ℕ
  queued : Bool
  hasMessageId : Bool
  position : Option ℕ
  reconnectTriggered : Bool
  queueAfter : List QueuedMessage
  deriving DecidableEq

/-- POST /api/send-text (validated request), as a function of the
instance's session view, its current pending queue, the freshly built
queue entry, and the adapter send result.  Not CONNECTED: enqueue, call
forceReconnect unless the session's status is RECONNECTING, answer 202
with queued/messageId/position.  CONNECTED: 200 on success; on a
disconnect-flavoured error enqueue + forceReconnect + 202 (without a
position field); otherwise 500. -/
def sendTextEndpoint (session : Option SessionView) (q : List QueuedMessage)
    (m : QueuedMessage) (sendResult : SendOutcome) : SendTextResponse :=
  if notConnected session then
    { httpStatus := 202, queued := true, hasMessageId := true,
      position := some (MessageQueue.enqueuePosition q m),
      reconnectTriggered :=
        match session with
        | none => true
        | some s => s.status != RECONNECTING,
      queueAfter := MessageQueue.enqueue q m }
  else
    match sendResult with
    | SendOutcome.ok =>
      { httpStatus := 200, queued := false, hasMessageId := true,
        position := none, reconnectTriggered := false, queueAfter := q }
    | SendOutcome.disconnectErr =>
      { httpStatus := 202, queued := true, hasMessageId := true,
        position := none, reconnectTriggered := true,
        queueAfter := MessageQueue.enqueue q m }
    | SendOutcome.otherErr =>
      { httpStatus := 500, queued := false, hasMessageId := false,
        position := none, reconnectTriggered := false, queueAfter := q }

/-- Observable response of POST /api/send-media. -/
structure SendMediaResponse where
  httpStatus : ℕ
  queued : Bool
  reconnectTriggered : Bool
  queueAfter : List QueuedMessage
  deriving DecidableEq

/-- POST /api/send-media (validated request with media present).  No
session: 503 Instance not active/loaded.  Session not CONNECTED or no
client: 503.  Otherwise the media is sent: 200 on success, 500 on any
error.  No branch enqueues or calls forceReconnect. -/
def sendMediaEndpoint (session : Option SessionView) (q : List QueuedMessage)
    (sendResult : SendOutcome) : SendMediaResponse :=
  match session with
  | none =>
    { httpStatus := 503, queued := false, reconnectTriggered := false, queueAfter := q }
  | some s =>
    if s.status != CONNECTED || !s.hasClient then
      { httpStatus := 503, queued := false, reconnectTriggered := false, queueAfter := q }
    else
      match sendResult with
      | SendOutcome.ok =>
        { httpStatus := 200, queued := false, reconnectTriggered := false, queueAfter := q }
      | _ =>
        { httpStatus := 500, queued := false, reconnectTriggered := false, queueAfter := q }

/-- Observable response of GET /api/session/status/:id.  hasQr = none
models the absence of the hasQr field in the JSON body. -/
structure StatusResponse where
  httpStatus : ℕ
  status : String
  hasQr : Option Bool
  deriving DecidableEq

/-- GET /api/session/status/:id: res.json answers 200 in both branches;
without a session the body is status DISCONNECTED with no hasQr field,
otherwise the session's status and hasQr = !!session.qr. -/
def sessionStatusEndpoint (session : Option SessionView) : StatusResponse :=
  match session with
  | none => { httpStatus := 200, status := DISCONNECTED, hasQr := none }
  | some s => { httpStatus := 200, status := s.status, hasQr := some s.qr.isSome }

/-! ## Concrete sample data used by witnesses and counterexamples -/

/-- 101 = MAX_QUEUE_SIZE + 1 pairwise distinct messages. -/
def msgs101 : List QueuedMessage :=
  (List.range 101).map (fun i => { id := i, createdAt := 0, retries := 0 })

/-- A sample queue entry. -/
def msgSample : QueuedMessage :=
  { id := 7, createdAt := 0, retries := 0 }

/-- A sample QR payload. -/
def samplePayload : String := "2@abcdef"

/-- A CONNECTED session with a live client. -/
def connectedSession : SessionView :=
  { status := CONNECTED, hasClient := true, qr := none, lastActivity := 0 }

/-- A DISCONNECTED session (client handle still referenced). -/
def disconnectedSession : SessionView :=
  { status := DISCONNECTED, hasClient := true, qr := none, lastActivity := 0 }

/-- A session waiting at the QR screen, no client handle. -/
def qrSession : SessionView :=
  { status := QR_CODE, hasClient := false, qr := none, lastActivity := 0 }

/-- A QR_CODE session holding a stored payload. -/
def qrSessionWithPayload : SessionView :=
  { status := QR_CODE, hasClient := true, qr := some samplePayload, lastActivity := 3 }

/-- An INITIALIZING session, before any qr event. -/
def initializingSession : SessionView :=
  { status := INITIALIZING, hasClient := true, qr := none, lastActivity := 0 }

end WBot

/-! ### First theorems: queue bound (C5 groundwork) -/

namespace WBot

lemma enqueue_length_le (q : List QueuedMessage) (m : QueuedMessage)
    (h : q.length ≤ MessageQueue.maxQueueSize) :
    (MessageQueue.enqueue q m).length ≤ MessageQueue.maxQueueSize := by
  unfold MessageQueue.enqueue
  split
  all_goals simp_all [MessageQueue.maxQueueSize]
  all_goals omega

lemma enqueue_full (q : List QueuedMessage) (m : QueuedMessage)
    (h : q.length = MessageQueue.maxQueueSize) :
    MessageQueue.enqueue q m = q.tail ++ [m] := by
  unfold MessageQueue.enqueue
  rw [if_pos (le_of_eq h.symm)]

lemma foldl_enqueue_no_evict :
    ∀ (ms q : List QueuedMessage), q.length + ms.length ≤ MessageQueue.maxQueueSize →
      List.foldl MessageQueue.enqueue q ms = q ++ ms := by
  intro ms
  induction ms with
  | nil => intro q _; simp
  | cons m rest ih =>
    intro q h
    have hq : ¬ MessageQueue.maxQueueSize ≤ q.length := by
      simp at h ⊢; omega
    have h1 : MessageQueue.enqueue q m = q ++ [m] := by
      unfold MessageQueue.enqueue
      rw [if_neg hq]
    rw [List.foldl_cons, h1, ih (q ++ [m]) (by simp at h ⊢; omega)]
    simp

lemma foldl_enqueue_overflow (msgs : List QueuedMessage)
    (hlen : msgs.length = MessageQueue.maxQueueSize + 1) :
    List.foldl MessageQueue.enqueue [] msgs = msgs.tail := by
  obtain ⟨t, l, rfl⟩ : ∃ t l, msgs = t ++ [l] := by
    rcases List.eq_nil_or_concat msgs with h | ⟨t, l, h⟩
    · simp [h] at hlen
    · exact ⟨t, l, by simpa [List.concat_eq_append] using h⟩
  have ht : t.length = MessageQueue.maxQueueSize := by
    simp at hlen; omega
  have h1 : List.foldl MessageQueue.enqueue [] t = t := by
    have := foldl_enqueue_no_evict t [] (by simp [ht])
    simpa using this
  rw [List.foldl_append, h1]
  simp only [List.foldl_cons, List.foldl_nil]
  rw [enqueue_full t l ht]
  obtain ⟨x, t', rfl⟩ : ∃ x t', t = x :: t' := by
    cases t with
    | nil => simp [MessageQueue.maxQueueSize] at ht
    | cons x t' => exact ⟨x, t', rfl⟩
  simp

/-- C5: the per-instance pending queue is bounded by
MAX_QUEUE_SIZE = 100: an enqueue preserves the bound, an enqueue into a
full queue evicts exactly the oldest message, and after
MAX_QUEUE_SIZE + 1 enqueues of distinct messages into an empty queue
the first-enqueued message is absent and the most recently enqueued
message is present. -/
theorem C5_queue_bound :
    (∀ (q : List QueuedMessage) (m : QueuedMessage),
       q.length ≤ MessageQueue.maxQueueSize →
       (MessageQueue.enqueue q m).length ≤ MessageQueue.maxQueueSize) ∧
    (∀ (q : List QueuedMessage) (m : QueuedMessage),
       q.length = MessageQueue.maxQueueSize →
       MessageQueue.enqueue q m = q.tail ++ [m]) ∧
    (∀ msgs : List QueuedMessage,
       msgs.length = MessageQueue.maxQueueSize + 1 → msgs.Nodup →
       List.foldl MessageQueue.enqueue [] msgs = msgs.tail ∧
       (∀ m0, msgs.head? = some m0 → m0 ∉ List.foldl MessageQueue.enqueue [] msgs) ∧
       (∀ mN, msgs.getLast? = some mN → mN ∈ List.foldl MessageQueue.enqueue [] msgs)) := by
  refine ⟨enqueue_length_le, enqueue_full, ?_⟩
  intro msgs hlen hnodup
  have hfold := foldl_enqueue_overflow msgs hlen
  refine ⟨hfold, ?_, ?_⟩
  · intro m0 hm0
    rw [hfold]
    cases msgs with
    | nil => simp at hm0
    | cons x rest =>
      simp at hm0
      subst hm0
      simp only [List.tail_cons]
      exact (List.nodup_cons.mp hnodup).1
  · intro mN hmN
    rw [hfold]
    cases msgs with
    | nil => simp at hlen
    | cons x rest =>
      cases rest with
      | nil => simp [MessageQueue.maxQueueSize] at hlen
      | cons y rest' =>
        rw [List.getLast?_cons_cons] at hmN
        simp only [List.tail_cons]
        obtain ⟨hh, rfl⟩ := List.mem_getLast?_eq_getLast (x := mN) hmN
        exact List.getLast_mem hh

/-- Witness for C5: 101 distinct messages enqueued into an empty queue. -/
theorem C5_queue_bound_witness :
    (msgs101.length = MessageQueue.maxQueueSize + 1 ∧ msgs101.Nodup) ∧
    (List.foldl MessageQueue.enqueue [] msgs101 = msgs101.tail ∧
     (∀ m0, msgs101.head? = some m0 → m0 ∉ List.foldl MessageQueue.enqueue [] msgs101) ∧
     (∀ mN, msgs101.getLast? = some mN → mN ∈ List.foldl MessageQueue.enqueue [] msgs101)) := by
  have hlen : msgs101.length = MessageQueue.maxQueueSize + 1 := by
    simp [msgs101, MessageQueue.maxQueueSize]
  have hnodup : msgs101.Nodup := by
    refine List.Nodup.map ?_ (List.nodup_range 101)
    intro a b hab
    simpa using congrArg QueuedMessage.id hab
  exact ⟨⟨hlen, hnodup⟩, C5_queue_bound.2.2 msgs101 hlen hnodup⟩

/-! ### C6: TTL at drain time -/

lemma processQueue_sent_age (time : ℕ → ℕ) (sendOk : ℕ → Bool) :
    ∀ (fuel step : ℕ) (q : List QueuedMessage) (m : QueuedMessage) (t : ℕ),
      MessageQueue.DrainEvent.sent m t ∈ MessageQueue.processQueue time sendOk fuel step q →
      t - m.createdAt ≤ MessageQueue.messageTimeout := by
  intro fuel
  induction fuel with
  | zero => intro step q m t h; simp [MessageQueue.processQueue] at h
  | succ fuel ih =>
    intro step q m t h
    cases q with
    | nil => simp [MessageQueue.processQueue] at h
    | cons x rest =>
      rw [MessageQueue.processQueue] at h
      split at h
      · rcases List.mem_cons.mp h with h1 | h1
        · cases h1
        · exact ih (step + 1) rest m t h1
      · split at h
        · rcases List.mem_cons.mp h with h1 | h1
          · cases h1
            omega
          · exact ih (step + 1) rest m t h1
        · split at h
          · rcases List.mem_cons.mp h with h1 | h1
            · cases h1
            · exact ih (step + 1) rest m t h1
          · rcases List.mem_cons.mp h with h1 | h1
            · cases h1
            · exact ih (step + 1) ({ x with retries := x.retries + 1 } :: rest) m t h1

lemma processQueue_expired_age (time : ℕ → ℕ) (sendOk : ℕ → Bool) :
    ∀ (fuel step : ℕ) (q : List QueuedMessage) (m : QueuedMessage) (t : ℕ),
      MessageQueue.DrainEvent.expiredDrop m t ∈ MessageQueue.processQueue time sendOk fuel step q →
      MessageQueue.messageTimeout < t - m.createdAt := by
  intro fuel
  induction fuel with
  | zero => intro step q m t h; simp [MessageQueue.processQueue] at h
  | succ fuel ih =>
    intro step q m t h
    cases q with
    | nil => simp [MessageQueue.processQueue] at h
    | cons x rest =>
      rw [MessageQueue.processQueue] at h
      split at h
      · rcases List.mem_cons.mp h with h1 | h1
        · cases h1
          omega
        · exact ih (step + 1) rest m t h1
      · split at h
        · rcases List.mem_cons.mp h with h1 | h1
          · cases h1
          · exact ih (step + 1) rest m t h1
        · split at h
          · rcases List.mem_cons.mp h with h1 | h1
            · cases h1
            · exact ih (step + 1) rest m t h1
          · rcases List.mem_cons.mp h with h1 | h1
            · cases h1
            · exact ih (step + 1) ({ x with retries := x.retries + 1 } :: rest) m t h1

/-- C6: during MessageQueue.processQueue, every message handed to the
send function has age at most MESSAGE_TTL at the Date.now() reading of
its iteration, and every message dropped as expired (reported through
onMessageFailed with the EXPIRED indication) has age strictly greater
than MESSAGE_TTL — no message older than MESSAGE_TTL is ever
dispatched. -/
theorem C6_ttl_drain :
    ∀ (time : ℕ → ℕ) (sendOk : ℕ → Bool) (fuel step : ℕ)
      (q : List QueuedMessage) (m : QueuedMessage) (t : ℕ),
      (MessageQueue.DrainEvent.sent m t ∈ MessageQueue.processQueue time sendOk fuel step q →
        t - m.createdAt ≤ MessageQueue.messageTimeout) ∧
      (MessageQueue.DrainEvent.expiredDrop m t ∈ MessageQueue.processQueue time sendOk fuel step q →
        MessageQueue.messageTimeout < t - m.createdAt) :=
  fun time sendOk fuel step q m t =>
    ⟨processQueue_sent_age time sendOk fuel step q m t,
     processQueue_expired_age time sendOk fuel step q m t⟩

/-- Witness for C6: a two-message drain in which the first message has
expired (enqueued at 0, drained at 400000 > MESSAGE_TTL) and the second
is fresh; the expired one is dropped and reported, the fresh one sent. -/
theorem C6_ttl_drain_witness :
    (MessageQueue.DrainEvent.sent { id := 2, createdAt := 350000, retries := 0 } 400000 ∈
       MessageQueue.processQueue (fun _ => 400000) (fun _ => true) 5 0
         [ { id := 1, createdAt := 0, retries := 0 },
           { id := 2, createdAt := 350000, retries := 0 } ] ∧
     MessageQueue.DrainEvent.expiredDrop { id := 1, createdAt := 0, retries := 0 } 400000 ∈
       MessageQueue.processQueue (fun _ => 400000) (fun _ => true) 5 0
         [ { id := 1, createdAt := 0, retries := 0 },
           { id := 2, createdAt := 350000, retries := 0 } ]) ∧
    (400000 - 350000 ≤ MessageQueue.messageTimeout ∧
     MessageQueue.messageTimeout < 400000 - 0) := by
  have hsent : MessageQueue.DrainEvent.sent { id := 2, createdAt := 350000, retries := 0 } 400000 ∈
      MessageQueue.processQueue (fun _ => 400000) (fun _ => true) 5 0
        [ { id := 1, createdAt := 0, retries := 0 },
          { id := 2, createdAt := 350000, retries := 0 } ] := by decide
  have hexp : MessageQueue.DrainEvent.expiredDrop { id := 1, createdAt := 0, retries := 0 } 400000 ∈
      MessageQueue.processQueue (fun _ => 400000) (fun _ => true) 5 0
        [ { id := 1, createdAt := 0, retries := 0 },
          { id := 2, createdAt := 350000, retries := 0 } ] := by decide
  refine ⟨⟨hsent, hexp⟩, ?_, ?_⟩
  · exact (C6_ttl_drain (fun _ => 400000) (fun _ => true) 5 0
      [ { id := 1, createdAt := 0, retries := 0 },
        { id := 2, createdAt := 350000, retries := 0 } ]
      { id := 2, createdAt := 350000, retries := 0 } 400000).1 hsent
  · exact (C6_ttl_drain (fun _ => 400000) (fun _ => true) 5 0
      [ { id := 1, createdAt := 0, retries := 0 },
        { id := 2, createdAt := 350000, retries := 0 } ]
      { id := 1, createdAt := 0, retries := 0 } 400000).2 hexp

end WBot

/-! ### C1: retry policy of the disconnected handler -/

namespace WBot

/-- C1: for a disconnect whose reason allows reconnection, once the
reconnect_attempts counter has reached MAX_RECONNECT_ATTEMPTS = 20 the
handler resets it to zero and still schedules a reconnect; for a reason
in NO_RECONNECT_REASONS no reconnect is scheduled and (with a database
pool present) the instance's enabled column is set to false. -/
theorem C1_retry_policy :
    (∀ (hasPool : Bool) (reason : String) (attempts : ℕ),
       reason ∉ NO_RECONNECT_REASONS →
       MAX_RECONNECT_ATTEMPTS ≤ attempts →
       (onDisconnected hasPool reason attempts).reconnectScheduled = true ∧
       (onDisconnected hasPool reason attempts).attemptsUsed = 0) ∧
    (∀ (reason : String) (attempts : ℕ),
       reason ∈ NO_RECONNECT_REASONS →
       (onDisconnected true reason attempts).reconnectScheduled = false ∧
       (onDisconnected true reason attempts).enabledSetFalse = true) := by
  constructor
  · intro hasPool reason attempts hmem hmax
    have hsr : shouldReconnect reason = true := by
      simp only [shouldReconnect, Bool.not_eq_true']
      simpa using hmem
    simp [onDisconnected, hsr, if_pos hmax]
  · intro reason attempts hmem
    have hsr : shouldReconnect reason = false := by
      simp only [shouldReconnect, Bool.not_eq_false']
      simpa using hmem
    simp [onDisconnected, hsr]

/-- Witness for C1: reason NAVIGATION at counter 20 reconnects with a
reset counter; reason BANNED disables the instance without reconnect. -/
theorem C1_retry_policy_witness :
    ("NAVIGATION" ∉ NO_RECONNECT_REASONS ∧
     MAX_RECONNECT_ATTEMPTS ≤ 20 ∧
     (onDisconnected true "NAVIGATION" 20).reconnectScheduled = true ∧
     (onDisconnected true "NAVIGATION" 20).attemptsUsed = 0) ∧
    ("BANNED" ∈ NO_RECONNECT_REASONS ∧
     (onDisconnected true "BANNED" 3).reconnectScheduled = false ∧
     (onDisconnected true "BANNED" 3).enabledSetFalse = true) := by
  have h1 := C1_retry_policy.1 true "NAVIGATION" 20 (by decide) (by decide)
  have h2 := C1_retry_policy.2 "BANNED" 3 (by decide)
  exact ⟨⟨by decide, by decide, h1.1, h1.2⟩, ⟨by decide, h2.1, h2.2⟩⟩

end WBot

/-! ### C2: in-flight reconnect tasks -/

namespace WBot

/-- C2 counterexample: starting from a connected session with no
reconnect in flight, a first forceReconnect request tears the session
down and leaves one delayed-restart task pending (a reconnect has begun
and not completed); a second forceReconnect request for the same
instance — which has no isReconnecting guard — schedules a second
concurrent delayed-restart task, so two reconnect tasks are in flight
at once. -/
theorem C2_single_reconnect_counterexample :
    (forceReconnect { session := some { isReconnecting := false, intervalsArmed := true },
                      pendingRestarts := 0 }).pendingRestarts = 1 ∧
    (forceReconnect (forceReconnect
        { session := some { isReconnecting := false, intervalsArmed := true },
          pendingRestarts := 0 })).pendingRestarts = 2 := by
  decide

/-- C2 amended: only handleConnectionLoss enforces the single-reconnect
contract — a request through it is ignored while the session's
isReconnecting flag is set; forceReconnect always schedules one more
delayed restart, so several restart tasks can be pending for one
instance, and duplicate session starts are suppressed only when each
timer fires, by the has-session guard of the callback. -/
theorem C2_single_reconnect_amended :
    (∀ (st : ReconnState) (s : ReconnSession),
       st.session = some s → s.isReconnecting = true →
       handleConnectionLoss st = st) ∧
    (∀ st : ReconnState,
       (forceReconnect st).pendingRestarts = st.pendingRestarts + 1 ∧
       (forceReconnect st).session = none) ∧
    (∀ st : ReconnState, st.session.isSome = true → (fireRestart st).session = st.session) ∧
    (∀ st : ReconnState, st.session = none → 0 < st.pendingRestarts →
       (fireRestart st).session = some freshSession ∧
       (fireRestart st).pendingRestarts = st.pendingRestarts - 1) := by
  refine ⟨?_, ?_, ?_, ?_⟩
  · intro st s hs hrec
    simp [handleConnectionLoss, hs, hrec]
  · intro st
    exact ⟨rfl, rfl⟩
  · intro st hsome
    obtain ⟨sess, p⟩ := st
    cases sess with
    | none => simp at hsome
    | some s =>
      cases p with
      | zero => rfl
      | succ n => rfl
  · intro st hnone hpos
    obtain ⟨sess, p⟩ := st
    simp only at hnone hpos
    subst hnone
    cases p with
    | zero => simp at hpos
    | succ n => exact ⟨rfl, rfl⟩

/-- Witness for C2 amended: concrete states exercising each guard. -/
theorem C2_single_reconnect_amended_witness :
    (({ session := some { isReconnecting := true, intervalsArmed := false },
        pendingRestarts := 1 } : ReconnState).session =
       some { isReconnecting := true, intervalsArmed := false } ∧
     handleConnectionLoss
       { session := some { isReconnecting := true, intervalsArmed := false },
         pendingRestarts := 1 } =
       { session := some { isReconnecting := true, intervalsArmed := false },
         pendingRestarts := 1 }) ∧
    (fireRestart { session := none, pendingRestarts := 2 }).session = some freshSession ∧
    (fireRestart { session := none, pendingRestarts := 2 }).pendingRestarts = 1 := by
  have h1 := C2_single_reconnect_amended.1
    { session := some { isReconnecting := true, intervalsArmed := false }, pendingRestarts := 1 }
    { isReconnecting := true, intervalsArmed := false } rfl rfl
  have h4 := C2_single_reconnect_amended.2.2.2
    { session := none, pendingRestarts := 2 } rfl (by decide)
  exact ⟨⟨rfl, h1⟩, h4.1, h4.2⟩

end WBot

/-! ### C7: backoff monotonicity -/

namespace WBot

lemma cappedBackoff_mono {a b : ℕ} (hab : a ≤ b) : cappedBackoff a ≤ cappedBackoff b := by
  unfold cappedBackoff
  refine min_le_min ?_ le_rfl
  refine mul_le_mul_of_nonneg_left (pow_le_pow_right₀ (by norm_num) hab) ?_
  norm_num [RECONNECT_BASE_DELAY]

lemma calculateReconnectDelay_eq_floor (attempt : ℕ) (jitter : ℚ) :
    calculateReconnectDelay attempt jitter false = Int.floor (cappedBackoff attempt + jitter) := by
  simp [calculateReconnectDelay, cappedBackoff]

/-- C7 counterexample: with jitter draws inside [0, JITTER_MAX) the
delay computed for attempt 1 can be strictly smaller than the delay
computed for attempt 0 (floor(7500 + 0) = 7500 < 7999 =
floor(5000 + 2999)), so the sequence of delays is not non-decreasing
for arbitrary jitter draws. -/
theorem C7_backoff_counterexample :
    ((0 : ℚ) ≤ 2999 ∧ (2999 : ℚ) < RECONNECT_JITTER_MAX ∧
     (0 : ℚ) ≤ 0 ∧ (0 : ℚ) < RECONNECT_JITTER_MAX) ∧
    calculateReconnectDelay 1 0 false < calculateReconnectDelay 0 2999 false := by
  refine ⟨by norm_num [RECONNECT_JITTER_MAX], ?_⟩
  have h1 : calculateReconnectDelay 1 0 false = 7500 := by
    simp only [calculateReconnectDelay, Bool.false_eq_true, if_false]
    norm_num [RECONNECT_BASE_DELAY, RECONNECT_MAX_DELAY]
  have h2 : calculateReconnectDelay 0 2999 false = 7999 := by
    simp only [calculateReconnectDelay, Bool.false_eq_true, if_false]
    norm_num [RECONNECT_BASE_DELAY, RECONNECT_MAX_DELAY]
  rw [h1, h2]
  decide

/-- C7 amended: for a fixed non-immediate reason the pre-jitter capped
exponential delay is non-decreasing in the attempt number (so delays
with equal jitter draws are non-decreasing up to MAX_DELAY), and for
arbitrary jitter draws in [0, JITTER_MAX) a later delay can undercut an
earlier one by at most JITTER_MAX = 3000 ms. -/
theorem C7_backoff_amended :
    (∀ (a b : ℕ) (j : ℚ), a ≤ b → 0 ≤ j →
       calculateReconnectDelay a j false ≤ calculateReconnectDelay b j false) ∧
    (∀ (a b : ℕ) (ja jb : ℚ), a ≤ b →
       0 ≤ ja → ja < RECONNECT_JITTER_MAX → 0 ≤ jb →
       calculateReconnectDelay a ja false - 3000 ≤ calculateReconnectDelay b jb false) := by
  constructor
  · intro a b j hab _
    rw [calculateReconnectDelay_eq_floor, calculateReconnectDelay_eq_floor]
    exact Int.floor_le_floor (add_le_add_right (cappedBackoff_mono hab) j)
  · intro a b ja jb hab hja0 hja hjb0
    have hmono := cappedBackoff_mono hab
    have h1 : (calculateReconnectDelay a ja false : ℚ) ≤ cappedBackoff a + ja := by
      rw [calculateReconnectDelay_eq_floor]
      exact Int.floor_le _
    have h2 : cappedBackoff b + jb - 1 < (calculateReconnectDelay b jb false : ℚ) := by
      rw [calculateReconnectDelay_eq_floor]
      exact Int.sub_one_lt_floor _
    have hj : ja < 3000 := by
      simpa [RECONNECT_JITTER_MAX] using hja
    have hq : (calculateReconnectDelay a ja false : ℚ) <
        (calculateReconnectDelay b jb false : ℚ) + 3001 := by
      linarith
    have hz : calculateReconnectDelay a ja false < calculateReconnectDelay b jb false + 3001 := by
      exact_mod_cast hq
    omega

/-- Witness for C7 amended: attempts 2 ≤ 3 with equal jitter 100, and
attempts 0 ≤ 1 with jitter draws 2999 and 0. -/
theorem C7_backoff_amended_witness :
    ((0 : ℚ) ≤ 100 ∧
     calculateReconnectDelay 2 100 false ≤ calculateReconnectDelay 3 100 false) ∧
    ((0 : ℚ) ≤ 2999 ∧ (2999 : ℚ) < RECONNECT_JITTER_MAX ∧ (0 : ℚ) ≤ 0 ∧
     calculateReconnectDelay 0 2999 false - 3000 ≤ calculateReconnectDelay 1 0 false) := by
  refine ⟨⟨by norm_num, C7_backoff_amended.1 2 3 100 (by norm_num) (by norm_num)⟩,
          ⟨by norm_num, by norm_num [RECONNECT_JITTER_MAX], by norm_num,
           C7_backoff_amended.2 0 1 2999 0 (by norm_num) (by norm_num)
             (by norm_num [RECONNECT_JITTER_MAX]) (by norm_num)⟩⟩

end WBot

/-! ### C8: promotion loop from AUTHENTICATED -/

namespace WBot

lemma checkAuth_exit (getState : ℕ → Option String) (attempt : ℕ) (status : String)
    (h : status ≠ AUTHENTICATED) :
    checkAuthenticatedState getState attempt status =
      { finalStatus := status, probesArmed := false, persisted := false } := by
  rw [checkAuthenticatedState, if_pos h]

lemma checkAuth_timeout (getState : ℕ → Option String) :
    ∀ (n attempt : ℕ), 10 - attempt = n → attempt ≤ 10 →
      (∀ k, attempt ≤ k → k ≤ 10 → getState k ≠ some CONNECTED) →
      checkAuthenticatedState getState attempt AUTHENTICATED =
        { finalStatus := SYNC_TIMEOUT, probesArmed := false, persisted := false } := by
  intro n
  induction n with
  | zero =>
    intro attempt hn hle hk
    rw [checkAuthenticatedState, if_neg (by simp : ¬ AUTHENTICATED ≠ AUTHENTICATED),
      if_neg (hk attempt le_rfl hle), dif_neg (by omega : ¬ attempt < 10)]
  | succ n ih =>
    intro attempt hn hle hk
    rw [checkAuthenticatedState, if_neg (by simp : ¬ AUTHENTICATED ≠ AUTHENTICATED),
      if_neg (hk attempt le_rfl hle), dif_pos (by omega : attempt < 10)]
    exact ih (attempt + 1) (by omega) (by omega) (fun k h1 h2 => hk k (by omega) h2)

lemma checkAuth_connected (getState : ℕ → Option String) :
    ∀ (n attempt : ℕ), 10 - attempt = n → attempt ≤ 10 →
      (∃ k, attempt ≤ k ∧ k ≤ 10 ∧ getState k = some CONNECTED) →
      checkAuthenticatedState getState attempt AUTHENTICATED =
        { finalStatus := CONNECTED, probesArmed := true, persisted := true } := by
  intro n
  induction n with
  | zero =>
    rintro attempt hn hle ⟨k, hk1, hk2, hk3⟩
    have hk : k = attempt := by omega
    subst hk
    rw [checkAuthenticatedState, if_neg (by simp : ¬ AUTHENTICATED ≠ AUTHENTICATED), if_pos hk3]
  | succ n ih =>
    rintro attempt hn hle ⟨k, hk1, hk2, hk3⟩
    rw [checkAuthenticatedState, if_neg (by simp : ¬ AUTHENTICATED ≠ AUTHENTICATED)]
    by_cases hc : getState attempt = some CONNECTED
    · rw [if_pos hc]
    · rw [if_neg hc, dif_pos (by omega : attempt < 10)]
      refine ih (attempt + 1) (by omega) (by omega) ⟨k, ?_, hk2, hk3⟩
      rcases Nat.eq_or_lt_of_le hk1 with h | h
      · exact absurd hk3 (h ▸ hc)
      · omega

/-- C8: after the authenticated event the controller polls
adapter.getState() up to ten times while the session remains
AUTHENTICATED; if any poll observes CONNECTED the session is promoted
to CONNECTED with probes armed and persistence written, and if all ten
polls fail to observe CONNECTED the session transitions to
SYNC_TIMEOUT; the loop exits untouched once the status has left
AUTHENTICATED, and consecutive polls are spaced 15000 ms apart. -/
theorem C8_promotion_loop :
    (∀ getState : ℕ → Option String,
       ((∃ k, 1 ≤ k ∧ k ≤ 10 ∧ getState k = some CONNECTED) →
          checkAuthenticatedState getState 1 AUTHENTICATED =
            { finalStatus := CONNECTED, probesArmed := true, persisted := true }) ∧
       ((∀ k, 1 ≤ k → k ≤ 10 → getState k ≠ some CONNECTED) →
          checkAuthenticatedState getState 1 AUTHENTICATED =
            { finalStatus := SYNC_TIMEOUT, probesArmed := false, persisted := false })) ∧
    (∀ (getState : ℕ → Option String) (status : String), status ≠ AUTHENTICATED →
       checkAuthenticatedState getState 1 status =
         { finalStatus := status, probesArmed := false, persisted := false }) ∧
    (∀ attempt, 2 ≤ attempt → promotionPollDelay attempt = 15000) := by
  refine ⟨fun getState => ⟨?_, ?_⟩, ?_, ?_⟩
  · intro hex
    exact checkAuth_connected getState 9 1 (by omega) (by omega)
      (by rcases hex with ⟨k, h1, h2, h3⟩; exact ⟨k, h1, h2, h3⟩)
  · intro hall
    exact checkAuth_timeout getState 9 1 (by omega) (by omega) hall
  · intro getState status h
    exact checkAuth_exit getState 1 status h
  · intro attempt h
    simp [promotionPollDelay]
    omega

/-- Witness for C8: an adapter whose third poll observes CONNECTED is
promoted; an adapter that always errors ends in SYNC_TIMEOUT; a session
already past AUTHENTICATED is left untouched. -/
theorem C8_promotion_loop_witness :
    ((∃ k, 1 ≤ k ∧ k ≤ 10 ∧
        (fun k => if k = 3 then some CONNECTED else some OPENING) k = some CONNECTED) ∧
     checkAuthenticatedState (fun k => if k = 3 then some CONNECTED else some OPENING) 1
       AUTHENTICATED = { finalStatus := CONNECTED, probesArmed := true, persisted := true }) ∧
    ((∀ k, 1 ≤ k → k ≤ 10 → (fun _ => (none : Option String)) k ≠ some CONNECTED) ∧
     checkAuthenticatedState (fun _ => (none : Option String)) 1 AUTHENTICATED =
       { finalStatus := SYNC_TIMEOUT, probesArmed := false, persisted := false }) ∧
    (CONNECTED ≠ AUTHENTICATED ∧
     checkAuthenticatedState (fun _ => (none : Option String)) 1 CONNECTED =
       { finalStatus := CONNECTED, probesArmed := false, persisted := false }) ∧
    (2 ≤ 2 ∧ promotionPollDelay 2 = 15000) := by
  have hex : ∃ k, 1 ≤ k ∧ k ≤ 10 ∧
      (fun k => if k = 3 then some CONNECTED else some OPENING) k = some CONNECTED :=
    ⟨3, by norm_num, by norm_num, by simp⟩
  have hall : ∀ k, 1 ≤ k → k ≤ 10 → (fun _ => (none : Option String)) k ≠ some CONNECTED := by
    intro k _ _
    simp
  have hne : CONNECTED ≠ AUTHENTICATED := by
    simp [CONNECTED, AUTHENTICATED]
  refine ⟨⟨hex, (C8_promotion_loop.1 _).1 hex⟩,
          ⟨hall, (C8_promotion_loop.1 _).2 hall⟩,
          ⟨hne, C8_promotion_loop.2.1 _ CONNECTED hne⟩,
          ⟨le_rfl, C8_promotion_loop.2.2 2 le_rfl⟩⟩

end WBot


/-! ### C3: POST /api/send-text -/

namespace WBot

/-- C3: POST /api/send-text answers 200 with the sent-message result
when the session is CONNECTED with a live client handle and the adapter
send succeeds; whenever the instance is not CONNECTED (no session,
another status, or no client handle) it answers 202 with queued:true, a
messageId and the message's position in the per-instance queue, the
message is enqueued, and — because the source never assigns the
RECONNECTING value to an in-memory session's status (only to the
database connection_status column), so the endpoint's RECONNECTING
guard always passes — forceReconnect is triggered for the instance. -/
theorem C3_send_text :
    (∀ (s : Option SessionView) (q : List QueuedMessage) (m : QueuedMessage) (r : SendOutcome),
       notConnected s = true →
       (∀ sv, s = some sv → sv.status ≠ RECONNECTING) →
       (sendTextEndpoint s q m r).httpStatus = 202 ∧
       (sendTextEndpoint s q m r).queued = true ∧
       (sendTextEndpoint s q m r).hasMessageId = true ∧
       (sendTextEndpoint s q m r).position = some (MessageQueue.enqueuePosition q m) ∧
       (sendTextEndpoint s q m r).queueAfter = MessageQueue.enqueue q m ∧
       (sendTextEndpoint s q m r).reconnectTriggered = true) ∧
    (∀ (sv : SessionView) (q : List QueuedMessage) (m : QueuedMessage),
       notConnected (some sv) = false →
       (sendTextEndpoint (some sv) q m SendOutcome.ok).httpStatus = 200 ∧
       (sendTextEndpoint (some sv) q m SendOutcome.ok).hasMessageId = true ∧
       (sendTextEndpoint (some sv) q m SendOutcome.ok).queued = false ∧
       (sendTextEndpoint (some sv) q m SendOutcome.ok).queueAfter = q) ∧
    (notConnected none = true ∧
     ∀ sv : SessionView, notConnected (some sv) = true ↔
       (sv.status ≠ CONNECTED ∨ sv.hasClient = false)) := by
  refine ⟨?_, ?_, rfl, ?_⟩
  · intro s q m r hnc hrec
    unfold sendTextEndpoint
    rw [if_pos hnc]
    refine ⟨rfl, rfl, rfl, rfl, rfl, ?_⟩
    cases s with
    | none => rfl
    | some sv =>
      simp only
      rw [bne_iff_ne]
      exact hrec sv rfl
  · intro sv q m hnc
    unfold sendTextEndpoint
    rw [if_neg (by simp [hnc])]
    exact ⟨rfl, rfl, rfl, rfl⟩
  · intro sv
    simp [notConnected]

/-- Witness for C3: an instance with no session gets 202/queued with a
reconnect trigger; a CONNECTED session with a client gets 200. -/
theorem C3_send_text_witness :
    (notConnected none = true ∧
     (sendTextEndpoint none [] msgSample SendOutcome.ok).httpStatus = 202 ∧
     (sendTextEndpoint none [] msgSample SendOutcome.ok).queued = true ∧
     (sendTextEndpoint none [] msgSample SendOutcome.ok).reconnectTriggered = true) ∧
    (notConnected (some connectedSession) = false ∧
     (sendTextEndpoint (some connectedSession) [] msgSample SendOutcome.ok).httpStatus = 200) := by
  have h1 := C3_send_text.1 none [] msgSample SendOutcome.ok (by decide)
    (by intro sv h; cases h)
  have h2 := C3_send_text.2.1 connectedSession [] msgSample (by decide)
  exact ⟨⟨by decide, h1.1, h1.2.1, h1.2.2.2.2.2⟩, ⟨by decide, h2.1⟩⟩

end WBot

/-! ### C4: POST /api/send-media -/

namespace WBot

/-- C4 counterexample: a request naming an instance whose session is
DISCONNECTED is answered 503 with nothing enqueued and no queued field,
not 202 with queued:true — /api/send-media does not share
/api/send-text's enqueue semantics. -/
theorem C4_send_media_counterexample :
    notConnected (some disconnectedSession) = true ∧
    (sendMediaEndpoint (some disconnectedSession) [] SendOutcome.ok).httpStatus = 503 ∧
    (sendMediaEndpoint (some disconnectedSession) [] SendOutcome.ok).queued = false ∧
    (sendMediaEndpoint (some disconnectedSession) [] SendOutcome.ok).queueAfter = [] := by
  decide

/-- C4 amended: for every request naming an instance that is not
CONNECTED, POST /api/send-media answers 503 (Instance not active/loaded
when no session exists, not-connected otherwise), leaves the
per-instance pending queue unchanged, enqueues nothing and triggers no
reconnect. -/
theorem C4_send_media_amended :
    (∀ (q : List QueuedMessage) (r : SendOutcome),
       (sendMediaEndpoint none q r).httpStatus = 503 ∧
       (sendMediaEndpoint none q r).queued = false ∧
       (sendMediaEndpoint none q r).reconnectTriggered = false ∧
       (sendMediaEndpoint none q r).queueAfter = q) ∧
    (∀ (sv : SessionView) (q : List QueuedMessage) (r : SendOutcome),
       notConnected (some sv) = true →
       (sendMediaEndpoint (some sv) q r).httpStatus = 503 ∧
       (sendMediaEndpoint (some sv) q r).queued = false ∧
       (sendMediaEndpoint (some sv) q r).reconnectTriggered = false ∧
       (sendMediaEndpoint (some sv) q r).queueAfter = q) := by
  constructor
  · intro q r
    exact ⟨rfl, rfl, rfl, rfl⟩
  · intro sv q r hnc
    have hc : (sv.status != CONNECTED || !sv.hasClient) = true := by
      simpa [notConnected] using hnc
    simp [sendMediaEndpoint, hc]

/-- Witness for C4 amended: a missing session and a QR_CODE session. -/
theorem C4_send_media_amended_witness :
    ((sendMediaEndpoint none [] SendOutcome.ok).httpStatus = 503 ∧
     (sendMediaEndpoint none [] SendOutcome.ok).queueAfter = []) ∧
    (notConnected (some qrSession) = true ∧
     (sendMediaEndpoint (some qrSession) [] SendOutcome.ok).httpStatus = 503 ∧
     (sendMediaEndpoint (some qrSession) [] SendOutcome.ok).queued = false) := by
  have h1 := C4_send_media_amended.1 [] SendOutcome.ok
  have h2 := C4_send_media_amended.2 qrSession [] SendOutcome.ok (by decide)
  exact ⟨⟨h1.1, h1.2.2.2⟩, ⟨by decide, h2.1, h2.2.1⟩⟩

end WBot

/-! ### C9: the qr event handler -/

namespace WBot

/-- C9 counterexample: the qr handler sets the session status to the
QR_CODE literal, not to QR_REQUIRED, so after a qr event on an
INITIALIZING session the status is not QR_REQUIRED. -/
theorem C9_qr_counterexample :
    (onQr 5 samplePayload initializingSession).status ≠ QR_REQUIRED ∧
    (onQr 5 samplePayload initializingSession).status = QR_CODE := by
  decide

/-- C9 amended: when the adapter emits the qr event for a registered
session, the QR payload is stored on the session and the status becomes
QR_CODE — a CONNECTION_STATUS value distinct from QR_REQUIRED and
absent from the spec's section 4.2 state set. -/
theorem C9_qr_amended :
    ∀ (now : ℕ) (payload : String) (s : SessionView),
      (onQr now payload s).status = QR_CODE ∧
      (onQr now payload s).qr = some payload ∧
      (onQr now payload s).lastActivity = now ∧
      QR_CODE ∈ CONNECTION_STATUS_values ∧
      QR_CODE ∉ specStateSet ∧
      QR_CODE ≠ QR_REQUIRED := by
  intro now payload s
  exact ⟨rfl, rfl, rfl, by decide, by decide, by decide⟩

end WBot

/-! ### C10: GET /api/session/status/:id -/

namespace WBot

/-- C10: for an instance with no in-memory session the status endpoint
answers HTTP 200 with status DISCONNECTED and no hasQr field; with a
session it answers 200 with the session's current status and a boolean
hasQr that is true iff a QR payload is stored. -/
theorem C10_status_endpoint :
    (∀ s : Option SessionView, s = none →
       sessionStatusEndpoint s =
         { httpStatus := 200, status := DISCONNECTED, hasQr := none }) ∧
    (∀ (s : Option SessionView) (sv : SessionView), s = some sv →
       sessionStatusEndpoint s =
         { httpStatus := 200, status := sv.status, hasQr := some sv.qr.isSome } ∧
       ((sessionStatusEndpoint s).hasQr = some true ↔ sv.qr ≠ none)) := by
  constructor
  · intro s h
    subst h
    rfl
  · intro s sv h
    subst h
    refine ⟨rfl, ?_⟩
    simp [sessionStatusEndpoint, Option.isSome_iff_ne_none]

/-- Witness for C10: a missing session and a QR_CODE session holding a
payload. -/
theorem C10_status_endpoint_witness :
    (sessionStatusEndpoint none =
       { httpStatus := 200, status := DISCONNECTED, hasQr := none }) ∧
    (sessionStatusEndpoint (some qrSessionWithPayload) =
       { httpStatus := 200, status := QR_CODE, hasQr := some true } ∧
     ((sessionStatusEndpoint (some qrSessionWithPayload)).hasQr = some true ↔
       qrSessionWithPayload.qr ≠ none)) := by
  have h1 := C10_status_endpoint.1 none rfl
  have h2 := C10_status_endpoint.2 (some qrSessionWithPayload) qrSessionWithPayload rfl
  refine ⟨h1, ?_, h2.2⟩
  rw [h2.1]
  rfl

end WBot
